import Mathlib

/-!
Verification of the vcat-test-vectors manifest/catalog pipeline.

Shallow embedding conventions:
* Bytes are `List Nat` (each element below 256 where it matters).
* JSON documents are the `Json` inductive declared below; objects keep key
  order, because the Python validator parses the catalog with
  `object_pairs_hook=OrderedDict` and `json.dump` writes dict insertion
  order, so key order is observable behaviour.
* External capabilities (S3 object fetches, HTTP GET, `json.loads`) are
  passed in as explicit function parameters; `hashlib.sha256` is embedded
  concretely as `sha256hex` below.
* Python exceptions are modelled with `Except PyErr`; the validator's
  `exit(1)` calls become the `RunFatal` error of the whole run.
-/

namespace VCat

set_option maxRecDepth 10000

/-! ## SHA-256 (model of `hashlib.sha256`)

The repository calls `hashlib.sha256` in several places (one-shot and
incrementally).  We embed the function concretely, per FIPS 180-4, over
byte lists, with 32-bit arithmetic done in `Nat` modulo `2 ^ 32`. -/

/-- Truncation to a 32-bit word. -/
def w32 (x : Nat) : Nat := x % 4294967296

/-- Right rotation of a 32-bit word by `n` places. -/
def rotr (n x : Nat) : Nat := w32 ((x >>> n) ||| (x <<< (32 - n)))

/-- SHA-256 choice function; the bitwise complement of `x` over 32 bits is
`4294967295 ^^^ x`. -/
def ch32 (x y z : Nat) : Nat := (x &&& y) ^^^ ((4294967295 ^^^ x) &&& z)

/-- SHA-256 majority function. -/
def maj32 (x y z : Nat) : Nat := (x &&& y) ^^^ (x &&& z) ^^^ (y &&& z)

def bigSigma0 (x : Nat) : Nat := rotr 2 x ^^^ rotr 13 x ^^^ rotr 22 x

def bigSigma1 (x : Nat) : Nat := rotr 6 x ^^^ rotr 11 x ^^^ rotr 25 x

def smallSigma0 (x : Nat) : Nat := rotr 7 x ^^^ rotr 18 x ^^^ (x >>> 3)

def smallSigma1 (x : Nat) : Nat := rotr 17 x ^^^ rotr 19 x ^^^ (x >>> 10)

/-- The eight working registers of the compression function. -/
structure Sha256State where
  a : Nat
  b : Nat
  c : Nat
  d : Nat
  e : Nat
  f : Nat
  g : Nat
  h : Nat

/-- Initial hash value (FIPS 180-4 section 5.3.3), in decimal. -/
def initState : Sha256State :=
  ⟨1779033703, 3144134277, 1013904242, 2773480762,
   1359893119, 2600822924, 528734635, 1541459225⟩

/-- Round constants (FIPS 180-4 section 4.2.2), in decimal. -/
def sha256K : List Nat :=
  [1116352408, 1899447441, 3049323471, 3921009573,
   961987163, 1508970993, 2453635748, 2870763221,
   3624381080, 310598401, 607225278, 1426881987,
   1925078388, 2162078206, 2614888103, 3248222580,
   3835390401, 4022224774, 264347078, 604807628,
   770255983, 1249150122, 1555081692, 1996064986,
   2554220882, 2821834349, 2952996808, 3210313671,
   3336571891, 3584528711, 113926993, 338241895,
   666307205, 773529912, 1294757372, 1396182291,
   1695183700, 1986661051, 2177026350, 2456956037,
   2730485921, 2820302411, 3259730800, 3345764771,
   3516065817, 3600352804, 4094571909, 275423344,
   430227734, 506948616, 659060556, 883997877,
   958139571, 1322822218, 1537002063, 1747873779,
   1955562222, 2024104815, 2227730452, 2361852424,
   2428436474, 2756734187, 3204031479, 3329325298]

/-- Big-endian byte decomposition into `n` bytes. -/
def beBytes (n x : Nat) : List Nat :=
  (List.range n).map (fun i => (x >>> (8 * (n - 1 - i))) % 256)

/-- Message padding: append `0x80`, zero bytes up to 56 mod 64, then the
bit length as an 8-byte big-endian integer. -/
def pad (msg : List Nat) : List Nat :=
  msg ++ 0x80 :: List.replicate ((64 - ((msg.length + 9) % 64)) % 64) 0 ++ beBytes 8 (8 * msg.length)

/-- The sixteen 32-bit message words of one 64-byte block. -/
def msgWords (block : List Nat) : List Nat :=
  (List.range 16).map (fun i =>
    ((block.getD (4 * i) 0) <<< 24) + ((block.getD (4 * i + 1) 0) <<< 16) +
    ((block.getD (4 * i + 2) 0) <<< 8) + block.getD (4 * i + 3) 0)

/-- Extend the message schedule by `t` further words. -/
def extendW : Nat → List Nat → List Nat
  | 0, ws => ws
  | t + 1, ws =>
    extendW t (ws ++ [w32 (smallSigma1 (ws.getD (ws.length - 2) 0) + ws.getD (ws.length - 7) 0 +
      smallSigma0 (ws.getD (ws.length - 15) 0) + ws.getD (ws.length - 16) 0)])

/-- The 64-word message schedule of a block. -/
def schedule (block : List Nat) : List Nat := extendW 48 (msgWords block)

/-- One round of the compression function; the pair carries `(K_t, W_t)`. -/
def roundStep (s : Sha256State) (p : Nat × Nat) : Sha256State :=
  let t1 := w32 (s.h + bigSigma1 s.e + ch32 s.e s.f s.g + p.1 + p.2)
  let t2 := w32 (bigSigma0 s.a + maj32 s.a s.b s.c)
  ⟨w32 (t1 + t2), s.a, s.b, s.c, w32 (s.d + t1), s.e, s.f, s.g⟩

/-- Compression of one 64-byte block into the running hash value. -/
def compress (hv : Sha256State) (block : List Nat) : Sha256State :=
  let st := (sha256K.zip (schedule block)).foldl roundStep hv
  ⟨w32 (hv.a + st.a), w32 (hv.b + st.b), w32 (hv.c + st.c), w32 (hv.d + st.d),
   w32 (hv.e + st.e), w32 (hv.f + st.f), w32 (hv.g + st.g), w32 (hv.h + st.h)⟩

/-- Process the padded message 64 bytes at a time; the fuel is the number
of 64-byte blocks, so the recursion is structural (kernel-computable). -/
def foldBlocks : Nat → Sha256State → List Nat → Sha256State
  | 0, hv, _ => hv
  | n + 1, hv, rest => foldBlocks n (compress hv (rest.take 64)) (rest.drop 64)

/-- Serialization of the final hash value, big-endian. -/
def stateBytes (hv : Sha256State) : List Nat :=
  beBytes 4 hv.a ++ beBytes 4 hv.b ++ beBytes 4 hv.c ++ beBytes 4 hv.d ++
  beBytes 4 hv.e ++ beBytes 4 hv.f ++ beBytes 4 hv.g ++ beBytes 4 hv.h

/-- SHA-256 digest of a byte list. -/
def sha256bytes (msg : List Nat) : List Nat :=
  stateBytes (foldBlocks ((pad msg).length / 64) initState (pad msg))

/-- Lowercase hexadecimal digit. -/
def hexChar (n : Nat) : Char := if n < 10 then Char.ofNat (48 + n) else Char.ofNat (87 + n)

/-- Two lowercase hex digits of one byte. -/
def byteHex (b : Nat) : List Char := [hexChar (b / 16), hexChar (b % 16)]

/-- `hashlib.sha256(msg).hexdigest()`: the lowercase hex digest string. -/
def sha256hex (msg : List Nat) : String :=
  String.mk ((sha256bytes msg).foldr (fun b acc => byteHex b ++ acc) [])

/-- UTF-8 encoding of one character (Python text files are written UTF-8). -/
def utf8Char (c : Char) : List Nat :=
  let n := c.toNat
  if n < 128 then [n]
  else if n < 2048 then [192 + n / 64, 128 + n % 64]
  else if n < 65536 then [224 + n / 4096, 128 + (n / 64) % 64, 128 + n % 64]
  else [240 + n / 262144, 128 + (n / 4096) % 64, 128 + (n / 64) % 64, 128 + n % 64]

/-- UTF-8 bytes of a string. -/
def strBytes (s : String) : List Nat := s.data.foldr (fun c acc => utf8Char c ++ acc) []

/-! ## Chunked digest loops (claim C5)

`utils.getChecksum` reads a file in 4096-byte chunks and feeds each chunk
to `hash_sha256.update`; `validate_vcat_manifests.compute_sha256` does the
same with 8192-byte chunks.  A `hashlib` object's state is exactly the
sequence of bytes absorbed so far, so the loop
`while chunk := f.read(c): h.update(chunk)` is modelled by `absorb`, which
accumulates the bytes the hash object has seen (an empty read, also the
immediate one when `c = 0`, ends the loop). -/

def absorb (c : Nat) (data acc : List Nat) : List Nat :=
  if h : data = [] ∨ c = 0 then acc
  else absorb c (List.drop c data) (acc ++ List.take c data)
termination_by data.length
decreasing_by
  push_neg at h
  obtain ⟨h1, h2⟩ := h
  have hd : data.length ≠ 0 := fun hl => h1 (List.eq_nil_of_length_eq_zero hl)
  simp only [List.length_drop]
  omega

/-- `utils.getChecksum` on the bytes of the local file (chunk size 4096). -/
def getChecksum (fileBytes : List Nat) : String := sha256hex (absorb 4096 fileBytes [])

/-- `validate_vcat_manifests.compute_sha256` on the bytes of the file
(chunk size 8192). -/
def compute_sha256 (fileBytes : List Nat) : String := sha256hex (absorb 8192 fileBytes [])

/-- One-shot `hashlib.sha256(content).hexdigest()` as used by the catalog
scripts on an in-memory byte string. -/
def sha256_oneshot (content : List Nat) : String := sha256hex content

lemma absorb_spec_aux (c : Nat) (hc : c ≠ 0) :
    ∀ (n : Nat) (data acc : List Nat), data.length ≤ n → absorb c data acc = acc ++ data := by
  intro n
  induction n with
  | zero =>
    intro data acc hlen
    have hdata : data = [] := List.eq_nil_of_length_eq_zero (Nat.le_zero.mp hlen)
    subst hdata
    rw [absorb]
    simp
  | succ n ih =>
    intro data acc hlen
    by_cases hdata : data = []
    · subst hdata
      rw [absorb]
      simp
    · rw [absorb, dif_neg (by tauto)]
      have hlen2 : (List.drop c data).length ≤ n := by
        have hpos : 0 < data.length := List.length_pos.mpr hdata
        simp only [List.length_drop]
        omega
      rw [ih (List.drop c data) (acc ++ List.take c data) hlen2, List.append_assoc,
        List.take_append_drop]

lemma absorb_spec (c : Nat) (hc : c ≠ 0) (data acc : List Nat) :
    absorb c data acc = acc ++ data :=
  absorb_spec_aux c hc data.length data acc (Nat.le_refl _)

/-- The sixteen lowercase hexadecimal digits. -/
def hexAlphabet : List Char := "0123456789abcdef".data

lemma hexChar_mem : ∀ n, n < 16 → hexChar n ∈ hexAlphabet := by decide

lemma hexFold_length (l : List Nat) :
    (l.foldr (fun b acc => byteHex b ++ acc) []).length = 2 * l.length := by
  induction l with
  | nil => rfl
  | cons b t ih =>
    simp only [List.foldr_cons, List.length_append, ih, List.length_cons]
    have : (byteHex b).length = 2 := rfl
    omega

lemma hexFold_mem (l : List Nat) (hb : ∀ b ∈ l, b < 256) :
    ∀ c ∈ l.foldr (fun b acc => byteHex b ++ acc) [], c ∈ hexAlphabet := by
  induction l with
  | nil => intro c hc; simp at hc
  | cons b t ih =>
    intro c hc
    simp only [List.foldr_cons, List.mem_append] at hc
    rcases hc with hc | hc
    · have hblt : b < 256 := hb b (List.mem_cons_self _ _)
      have hdiv : b / 16 < 16 := by omega
      have hmod : b % 16 < 16 := Nat.mod_lt _ (by norm_num)
      simp only [byteHex, List.mem_cons, List.mem_singleton] at hc
      rcases hc with hc | hc | hc
      · exact hc ▸ hexChar_mem _ hdiv
      · exact hc ▸ hexChar_mem _ hmod
      · exact absurd hc (by simp)
    · exact ih (fun x hx => hb x (List.mem_cons_of_mem _ hx)) c hc

lemma beBytes_length (n x : Nat) : (beBytes n x).length = n := by
  simp [beBytes]

lemma beBytes_lt (n x : Nat) : ∀ b ∈ beBytes n x, b < 256 := by
  intro b hb
  simp only [beBytes, List.mem_map] at hb
  obtain ⟨i, _, hi⟩ := hb
  omega

lemma sha256bytes_length (msg : List Nat) : (sha256bytes msg).length = 32 := by
  simp [sha256bytes, stateBytes, beBytes_length]

lemma sha256bytes_lt (msg : List Nat) : ∀ b ∈ sha256bytes msg, b < 256 := by
  intro b hb
  simp only [sha256bytes, stateBytes, List.mem_append] at hb
  rcases hb with ((((((hb | hb) | hb) | hb) | hb) | hb) | hb) | hb <;>
    exact beBytes_lt _ _ b hb

/-- Claim C5: the 4096-byte-chunk digest loop (`getChecksum`), the
8192-byte-chunk loop (`compute_sha256`) and the one-shot
`hashlib.sha256(content)` agree on every byte sequence, the result is a
64-character string over the lowercase hex alphabet, and — all three being
the same pure function of the bytes — recomputing the digest of the same
bytes always yields the identical string regardless of source. -/
theorem digest_chunk_size_independent (B : List Nat) :
    getChecksum B = sha256_oneshot B ∧
    compute_sha256 B = sha256_oneshot B ∧
    (sha256_oneshot B).length = 64 ∧
    ∀ c ∈ (sha256_oneshot B).data, c ∈ hexAlphabet := by
  refine ⟨?_, ?_, ?_, ?_⟩
  · unfold getChecksum sha256_oneshot
    rw [absorb_spec 4096 (by norm_num) B [], List.nil_append]
  · unfold compute_sha256 sha256_oneshot
    rw [absorb_spec 8192 (by norm_num) B [], List.nil_append]
  · show ((sha256bytes B).foldr (fun b acc => byteHex b ++ acc) []).length = 64
    rw [hexFold_length, sha256bytes_length]
  · intro c hc
    exact hexFold_mem _ (sha256bytes_lt B) c hc

/-! ## JSON documents and Python operational primitives

Objects keep their key order (`OrderedDict` on the read side, dict
insertion order on the write side).  Numbers in the repository's documents
are integers, so `num : Int` suffices. -/

inductive Json where
  | null : Json
  | bool (b : Bool) : Json
  | num (n : Int) : Json
  | str (s : String) : Json
  | arr (elems : List Json) : Json
  | obj (pairs : List (String × Json)) : Json

/-- Python exception kinds raised by the embedded code. -/
inductive PyErr where
  | keyError
  | typeError
  | attributeError
  | valueError
  | jsonDecodeError
deriving DecidableEq, Repr

/-- Structural equality, as Python `==` on parsed JSON values. -/
def jsonBeq : Json → Json → Bool
  | .null, .null => true
  | .bool x, .bool y => x == y
  | .num x, .num y => x == y
  | .str x, .str y => x == y
  | .arr [], .arr [] => true
  | .arr (x :: xs), .arr (y :: ys) => jsonBeq x y && jsonBeq (.arr xs) (.arr ys)
  | .obj [], .obj [] => true
  | .obj ((k1, v1) :: t1), .obj ((k2, v2) :: t2) =>
    k1 == k2 && jsonBeq v1 v2 && jsonBeq (.obj t1) (.obj t2)
  | _, _ => false
termination_by j1 _ => sizeOf j1
decreasing_by all_goals (simp_wf; try omega)

/-- Whether `pre` is a prefix of `l` (character lists). -/
def isPrefixChars : List Char → List Char → Bool
  | [], _ => true
  | _ :: _, [] => false
  | p :: ps, c :: cs => p == c && isPrefixChars ps cs

/-- Substring test over char lists, as Python `needle in hay` on strings. -/
def containsSubAux (needle : List Char) : List Char → Bool
  | [] => isPrefixChars needle []
  | c :: cs => isPrefixChars needle (c :: cs) || containsSubAux needle cs

/-- Python `needle in hay` for strings. -/
def containsSub (hay needle : String) : Bool := containsSubAux needle.data hay.data

/-- Python `s.startswith(pre)`. -/
def strStartsWith (s pre : String) : Bool := isPrefixChars pre.data s.data

/-- Python `s.endswith(suf)`. -/
def strEndsWith (s suf : String) : Bool := isPrefixChars suf.data.reverse s.data.reverse

/-- First binding of key `k`, scanning left to right (keys of documents in
this repository are unique, so this agrees with Python dict lookup). -/
def lookupKey : List (String × Json) → String → Option Json
  | [], _ => none
  | (k', v) :: rest, k => if k' == k then some v else lookupKey rest k

/-- Python `j[k]` with a string key: `KeyError` when the key is absent,
`TypeError` when `j` is not a dict. -/
def pyIndex (j : Json) (k : String) : Except PyErr Json :=
  match j with
  | .obj kvs =>
    match lookupKey kvs k with
    | some v => .ok v
    | none => .error .keyError
  | _ => .error .typeError

/-- Python `j.get(k, d)`: `AttributeError` when `j` is not a dict. -/
def pyGetDefault (j : Json) (k : String) (d : Json) : Except PyErr Json :=
  match j with
  | .obj kvs => .ok ((lookupKey kvs k).getD d)
  | _ => .error .attributeError

/-- Python `j.get(k)` (default `None`). -/
def pyGetD (j : Json) (k : String) : Except PyErr Json := pyGetDefault j k .null

/-- Python `k in j`: key membership for dicts, element membership for
lists, substring for strings, `TypeError` otherwise. -/
def pyContains (k : String) (j : Json) : Except PyErr Bool :=
  match j with
  | .obj kvs => .ok (kvs.any (fun p => p.1 == k))
  | .arr l => .ok (l.any (fun e => jsonBeq e (.str k)))
  | .str s => .ok (containsSub s k)
  | _ => .error .typeError

/-- Python truthiness of a parsed JSON value. -/
def truthy : Json → Bool
  | .null => false
  | .bool b => b
  | .num n => n != 0
  | .str s => s != ""
  | .arr l => !l.isEmpty
  | .obj l => !l.isEmpty

/-- Python `for x in j`: dicts iterate their keys, strings their
characters (as 1-character strings); numbers are not iterable. -/
def toIterable : Json → Except PyErr (List Json)
  | .arr l => .ok l
  | .obj kvs => .ok (kvs.map (fun p => Json.str p.1))
  | .str s => .ok (s.data.map (fun c => Json.str (String.singleton c)))
  | _ => .error .typeError

/-- Python `next(iter(j), None)`: first key of a dict, first element of a
list, first character of a string; `TypeError` when `j` is not iterable. -/
def first_iter : Json → Except PyErr (Option Json)
  | .obj [] => .ok none
  | .obj ((k, _) :: _) => .ok (some (.str k))
  | .arr [] => .ok none
  | .arr (v :: _) => .ok (some v)
  | .str s => .ok (s.data.head?.map (fun c => Json.str (String.singleton c)))
  | _ => .error .typeError

/-! ## `utils.getTempCopyFromS3` (claim C10)

The function validates the `s3://` scheme, splits bucket and key, creates
a temporary file and downloads into it.  The effects it performs are made
explicit; `tempName` stands for the name `tempfile.NamedTemporaryFile`
hands back.  A URL that is just `s3://bucket` (no slash after the bucket)
makes the two-target tuple unpacking of `split("/", 1)` raise
`ValueError` as well, before any effect. -/

inductive S3Effect where
  | createTempFile
  | download (bucket key : String)
deriving DecidableEq, Repr

/-- Python `s.split(sep, 1)` when it yields two parts. -/
def splitOnceChar (sep : Char) : List Char → Option (List Char × List Char)
  | [] => none
  | c :: cs =>
    if c == sep then some ([], cs)
    else (splitOnceChar sep cs).map (fun p => (c :: p.1, p.2))

/-- `utils.getTempCopyFromS3`, with its effect trace. -/
def getTempCopyFromS3 (s3_url tempName : String) : Except PyErr (List S3Effect × String) :=
  if strStartsWith s3_url "s3://" then
    match splitOnceChar '/' (s3_url.data.drop 5) with
    | some (b, p) =>
      .ok ([.createTempFile, .download (String.mk b) (String.mk p)], tempName)
    | none => .error .valueError
  else .error .valueError

/-! ## `validate_vcat_test_vector_catalog.py`

`fetch_catalog` downloads and parses the catalog (the parse outcome is
the `Option Json` argument: `none` is a `json.loads` failure) and checks
that the first key of the root is the version sentinel, calling `exit(1)`
otherwise; `validate_entry` checks one catalog entry; `main` iterates all
entries and prints `passed/total`.  `net url` is the body returned by
`requests.get(url)` (`none` covers connection errors and non-2xx statuses,
which `raise_for_status` turns into caught exceptions); `parse` is
`json.loads` on the fetched body.  The first component of the results
below is the trace of URLs actually requested with `requests.get`. -/

/-- Fatal outcomes of the whole validation run. -/
inductive RunFatal where
  | parseFailure
  | badFirstKey (found : Option Json)
  | pyExc (e : PyErr)

/-- The required first key of the catalog root. -/
def sentinel : String := "vcat_test_vector_catalog_version"

/-- Python `first_key != "vcat_test_vector_catalog_version"`, negated: a
non-string first item never equals the sentinel string. -/
def pyKeyEqSentinel : Json → Bool
  | .str s => s == sentinel
  | _ => false

/-- `fetch_catalog`: parse the downloaded catalog and enforce the
first-key sentinel, exiting the run otherwise. -/
def fetch_catalog (parsedCatalog : Option Json) : Except RunFatal Json :=
  match parsedCatalog with
  | none => .error .parseFailure
  | some doc =>
    match first_iter doc with
    | .error e => .error (.pyExc e)
    | .ok none => .error (.badFirstKey none)
    | .ok (some k) => if pyKeyEqSentinel k then .ok doc else .error (.badFirstKey (some k))

/-- `validate_entry`: returns the list of URLs requested and either the
verdict or the uncaught exception.  `entry["description"]` and
`entry["url"]` (in the two banner prints) and `entry["sha256"]` (in the
comparison) are evaluated outside any `try`, so a missing key there
propagates and aborts the run; the download of `entry["url"]` (already
dereferenced by the print), the JSON parse of the body and the
`"vcat-test-vector"` membership test sit inside `try` blocks and
failures there just yield `False`. -/
def validate_entry (net : String → Option (List Nat)) (parse : List Nat → Option Json)
    (entry : Json) : List String × Except PyErr Bool :=
  match pyIndex entry "description" with
  | .error e => ([], .error e)
  | .ok _ =>
    match pyIndex entry "url" with
    | .error e => ([], .error e)
    | .ok u =>
      match u with
      | .str url =>
        match net url with
        | none => ([url], .ok false)
        | some content =>
          let hash_val := sha256hex content
          match pyIndex entry "sha256" with
          | .error e => ([url], .error e)
          | .ok expected =>
            let hashMatches := match expected with
              | .str s => hash_val == s
              | _ => false
            if hashMatches then
              match parse content with
              | none => ([url], .ok false)
              | some parsed =>
                match pyContains "vcat-test-vector" parsed with
                | .error _ => ([url], .ok false)
                | .ok has => ([url], .ok has)
            else ([url], .ok false)
      | _ => ([], .ok false)

/-- The entry loop of `main`, counting passing entries. -/
def mainLoop (net : String → Option (List Nat)) (parse : List Nat → Option Json) :
    List Json → List String × Except PyErr Nat
  | [] => ([], .ok 0)
  | e :: rest =>
    match validate_entry net parse e with
    | (tr1, .error err) => (tr1, .error err)
    | (tr1, .ok b) =>
      match mainLoop net parse rest with
      | (tr2, .error err) => (tr1 ++ tr2, .error err)
      | (tr2, .ok n) => (tr1 ++ tr2, .ok ((if b then 1 else 0) + n))

/-- `main` of the validator: fetch the catalog, read
`catalog.get("manifests", [])`, validate every entry, and report
`(passed, total)`. -/
def run_main (parsedCatalog : Option Json) (net : String → Option (List Nat))
    (parse : List Nat → Option Json) : List String × Except RunFatal (Nat × Nat) :=
  match fetch_catalog parsedCatalog with
  | .error f => ([], .error f)
  | .ok doc =>
    match pyGetDefault doc "manifests" (.arr []) with
    | .error e => ([], .error (.pyExc e))
    | .ok m =>
      match toIterable m with
      | .error e => ([], .error (.pyExc e))
      | .ok entries =>
        match mainLoop net parse entries with
        | (tr, .error e) => (tr, .error (.pyExc e))
        | (tr, .ok passed) => (tr, .ok (passed, entries.length))

/-! ## `generate_vcat_test_vector_catalog.py`

`build_catalog` lists the store under the `manifests/` prefix, keeps the
`.json` keys, downloads and hashes each one (`download_and_hash`), keeps
those that parse to a truthy value containing the key
`"vcat-test-vector"`, and assembles the catalog dict — whose first key,
by dict insertion order, is `"catalog_version"`.  The store is the list
of `(key, bytes)` pairs the paginator yields; `parse` is `json.loads`. -/

/-- `download_and_hash`: `(parsed, sha256)` on success, `None, None` when
the body does not parse. -/
def download_and_hash (parse : List Nat → Option Json) (bytes : List Nat) :
    Option (Json × String) :=
  (parse bytes).map (fun doc => (doc, sha256hex bytes))

/-- Public HTTPS URL of a stored object (bucket is fixed in the script). -/
def manifestUrl (key : String) : String :=
  "https://roncatech-vcat-test-vectors.s3.amazonaws.com/" ++ key

/-- The entry-collection loop of `build_catalog`. -/
def buildEntries (parse : List Nat → Option Json) :
    List (String × List Nat) → Except PyErr (List Json)
  | [] => .ok []
  | (key, bytes) :: rest =>
    if !(strStartsWith key "manifests/" && strEndsWith key ".json") then buildEntries parse rest
    else
      match download_and_hash parse bytes with
      | none => buildEntries parse rest
      | some (doc, sha) =>
        if !truthy doc then buildEntries parse rest
        else
          match pyContains "vcat-test-vector" doc with
          | .error e => .error e
          | .ok false => buildEntries parse rest
          | .ok true =>
            match pyIndex doc "vcat-test-vector" with
            | .error e => .error e
            | .ok meta =>
              match pyGetD meta "uuid" with
              | .error e => .error e
              | .ok uu =>
                match pyGetD meta "description" with
                | .error e => .error e
                | .ok dd =>
                  match buildEntries parse rest with
                  | .error e => .error e
                  | .ok es =>
                    .ok (Json.obj [("uuid", uu), ("description", dd),
                      ("url", .str (manifestUrl key)), ("sha256", .str sha)] :: es)

/-- `build_catalog`: the catalog document the script serializes with
`json.dump` and uploads (dict insertion order preserved). -/
def build_catalog (store : List (String × List Nat)) (parse : List Nat → Option Json) :
    Except PyErr Json :=
  match buildEntries parse store with
  | .error e => .error e
  | .ok entries => .ok (.obj [("catalog_version", .num 1), ("manifests", .arr entries)])

/-! ## `vcat_testvector_datamodels.py` (claim C8)

In `VcatTestVectorHeader`, `uuid` uses
`field(default_factory=lambda: str(uuid.uuid4()))`, so the factory runs
once per construction (`freshUuid` stands for that draw), while
`created_at = datetime.now().strftime(...)` is a plain dataclass default:
Python evaluates it a single time, when the class statement itself runs
at module import, and every instance shares that value.  `importTime`
stands for the formatted clock value captured at class definition. -/

structure VcatTestVectorHeader where
  name : Json
  description : Json
  created_by : String
  uuid : String
  created_at : String

/-- Construction of a `VcatTestVectorHeader` with the dataclass defaults:
a fresh uuid draw, and the `created_at` value captured at class
definition time. -/
def mkVcatTestVectorHeader (importTime freshUuid : String) (name description : Json)
    (created_by : String) : VcatTestVectorHeader :=
  { name := name, description := description, created_by := created_by,
    uuid := freshUuid, created_at := importTime }

/-! ## `vcat_testvector_playlist_builder.py` and
`vcat_testvector_catalog_builder.py`

Both fetch a manifest from the store (`fetched = none` is the
`NoSuchKey` case, which is caught and makes the function return `None`),
parse it, and build a `VcatTestVectorPlaylistAsset` reference record.
The bytes the functions hash with `getChecksum` (via a temp copy of the
same object) are exactly the fetched bytes. -/

structure VcatTestVectorPlaylistAsset where
  name : Json
  url : String
  checksum : String
  length_bytes : Json
  uuid : Json
  description : Json

structure VcatTestVectorPlaylistManifest where
  vcat_testvector_header : VcatTestVectorHeader
  media_assets : List VcatTestVectorPlaylistAsset

/-- `generate_playlist_from_video_manifest`: builds the playlist manifest
for one video manifest; `.ok none` is the skip path (object missing, or
not a video manifest), errors are the uncaught Python exceptions. -/
def generate_playlist_from_video_manifest (fetched : Option (List Nat))
    (parse : List Nat → Option Json) (bucket_name file_path : String)
    (importTime freshUuid : String) :
    Except PyErr (Option VcatTestVectorPlaylistManifest) :=
  match fetched with
  | none => .ok none
  | some bytes =>
    match parse bytes with
    | none => .error .jsonDecodeError
    | some video_manifest =>
      match pyIndex video_manifest "media_asset" with
      | .error e => .error e
      | .ok media_asset =>
        match pyContains "video_mime_type" media_asset with
        | .error e => .error e
        | .ok false => .ok none
        | .ok true =>
          match pyIndex video_manifest "vcat_testvector_header" with
          | .error e => .error e
          | .ok header =>
            match pyIndex header "name" with
            | .error e => .error e
            | .ok video_name =>
              match pyIndex header "description" with
              | .error e => .error e
              | .ok video_description =>
                match pyIndex header "uuid" with
                | .error e => .error e
                | .ok video_uuid =>
                  match pyIndex media_asset "video_mime_type" with
                  | .error e => .error e
                  | .ok _ =>
                    match pyIndex media_asset "resolution_x_y" with
                    | .error e => .error e
                    | .ok _ =>
                      match video_description with
                      | .str d =>
                        let playlist_description := "Playlist video: " ++ d
                        let checksum := getChecksum bytes
                        let media_asset_url :=
                          "https://" ++ bucket_name ++ ".s3.amazonaws.com/" ++ file_path
                        match pyIndex media_asset "length_bytes" with
                        | .error e => .error e
                        | .ok lb =>
                          let asset : VcatTestVectorPlaylistAsset :=
                            { name := video_name, url := media_asset_url,
                              checksum := checksum, length_bytes := lb,
                              uuid := video_uuid, description := video_description }
                          .ok (some
                            { vcat_testvector_header :=
                                mkVcatTestVectorHeader importTime freshUuid video_name
                                  (.str playlist_description) "RoncaTech, LLC",
                              media_assets := [asset] })
                      | _ => .error .typeError

/-- `process_playlist_manifest` (catalog builder): builds the
`VcatTestVectorPlaylistAsset` referencing one playlist manifest;
`length_bytes` is `os.path.getsize` of the temp copy, i.e. the byte
length of the stored document. -/
def process_playlist_manifest (fetched : Option (List Nat))
    (parse : List Nat → Option Json) (bucket_name file_path : String) :
    Except PyErr (Option VcatTestVectorPlaylistAsset) :=
  match fetched with
  | none => .ok none
  | some bytes =>
    match parse bytes with
    | none => .error .jsonDecodeError
    | some playlist_manifest =>
      match pyContains "media_assets" playlist_manifest with
      | .error e => .error e
      | .ok false => .ok none
      | .ok true =>
        match pyIndex playlist_manifest "vcat_testvector_header" with
        | .error e => .error e
        | .ok playlist_header =>
          match pyIndex playlist_header "uuid" with
          | .error e => .error e
          | .ok playlist_uuid =>
            match pyIndex playlist_header "name" with
            | .error e => .error e
            | .ok playlist_name =>
              match pyIndex playlist_header "description" with
              | .error e => .error e
              | .ok playlist_description =>
                let playlist_checksum := getChecksum bytes
                let playlist_length := bytes.length
                .ok (some
                  { name := playlist_name,
                    url := "https://" ++ bucket_name ++ ".s3.amazonaws.com/" ++ file_path,
                    checksum := playlist_checksum,
                    length_bytes := .num playlist_length,
                    uuid := playlist_uuid,
                    description := playlist_description })

/-! ## `vcat_testvector_video_builder.get_video_details` (claim C6)

The prober runs `ffmpeg -i file`, captures stderr and scans it: a
substring test for the codec, `re.search` for duration, resolution and
frame rate.  The argument is `some stderr` for a completed subprocess and
`none` when anything in the `try` block raises (the `except` path, which
returns the string `"unknown"` four times).  The regex patterns
`Duration: (\d\d):(\d\d):(\d\d)\.(\d\d)`, `, (\d+)x(\d+),` and
`(\d+(\.\d+)?) fps` are embedded as explicit matchers with `re.search`'s
leftmost-match semantics. -/

/-- A Python value as returned in the 4-tuple of `get_video_details`. -/
inductive ProbeVal where
  | pyNone
  | pyStr (s : String)
  | pyNum (n : Nat)
  | pyFloat (lit : String)
deriving DecidableEq, Repr

structure ProbeResult where
  codec : ProbeVal
  duration_ms : ProbeVal
  resolution_x_y : ProbeVal
  frame_rate : ProbeVal
deriving DecidableEq, Repr

/-- Maximal leading digit run. -/
def takeDigits : List Char → List Char × List Char
  | [] => ([], [])
  | c :: cs =>
    if c.isDigit then
      let p := takeDigits cs
      (c :: p.1, p.2)
    else ([], c :: cs)

/-- Exactly two digits, as `\d\d`. -/
def twoDigits : List Char → Option (Nat × List Char)
  | a :: b :: rest =>
    if a.isDigit && b.isDigit then some ((a.toNat - 48) * 10 + (b.toNat - 48), rest)
    else none
  | _ => none

/-- Require one literal character. -/
def expectChar (c : Char) : List Char → Option (List Char)
  | x :: xs => if x == c then some xs else none
  | [] => none

/-- Drop a literal pattern from the front. -/
def stripLit : List Char → List Char → Option (List Char)
  | [], l => some l
  | _ :: _, [] => none
  | p :: ps, c :: cs => if p == c then stripLit ps cs else none

/-- Leftmost-match search: try the matcher at every start position. -/
def searchAux {α : Type} (m : List Char → Option α) : List Char → Option α
  | [] => m []
  | c :: cs =>
    match m (c :: cs) with
    | some x => some x
    | none => searchAux m cs

/-- `Duration: (\d\d):(\d\d):(\d\d)\.(\d\d)` at one position, already
converted to milliseconds as the Python code does. -/
def durMatchAt (l : List Char) : Option Nat := do
  let r ← stripLit "Duration: ".data l
  let (hh, r) ← twoDigits r
  let r ← expectChar ':' r
  let (mm, r) ← twoDigits r
  let r ← expectChar ':' r
  let (ss, r) ← twoDigits r
  let r ← expectChar '.' r
  let (cc, _) ← twoDigits r
  pure ((hh * 3600 + mm * 60 + ss) * 1000 + cc * 10)

def durSearch (l : List Char) : Option Nat := searchAux durMatchAt l

/-- `, (\d+)x(\d+),` at one position; the captures are the digit runs. -/
def resMatchAt (l : List Char) : Option (String × String) :=
  match stripLit ", ".data l with
  | none => none
  | some r =>
    let pw := takeDigits r
    if pw.1.isEmpty then none
    else
      match expectChar 'x' pw.2 with
      | none => none
      | some r2 =>
        let ph := takeDigits r2
        if ph.1.isEmpty then none
        else
          match expectChar ',' ph.2 with
          | none => none
          | some _ => some (String.mk pw.1, String.mk ph.1)

def resSearch (l : List Char) : Option (String × String) := searchAux resMatchAt l

/-- The literal ` fps` tail of the frame-rate pattern. -/
def fpsLit : List Char := " fps".data

/-- `(\d+(\.\d+)?) fps` at one position, with the regex's backtracking on
the optional fractional group; the capture is the matched literal. -/
def fpsMatchAt (l : List Char) : Option String :=
  let p := takeDigits l
  if p.1.isEmpty then none
  else
    match p.2 with
    | '.' :: r2 =>
      let q := takeDigits r2
      if !q.1.isEmpty && isPrefixChars fpsLit q.2 then some (String.mk (p.1 ++ '.' :: q.1))
      else if isPrefixChars fpsLit p.2 then some (String.mk p.1)
      else none
    | _ => if isPrefixChars fpsLit p.2 then some (String.mk p.1) else none

def fpsSearch (l : List Char) : Option String := searchAux fpsMatchAt l

/-- `get_video_details`: `none` models an exception inside the `try`
block (the `except` path); `some stderr` is the captured ffmpeg stderr.
On the normal path the codec falls back to `"Unknown"`, the frame rate to
the string `"unknown"`, while an unmatched duration or resolution is left
as the initial `None`. -/
def get_video_details (stderrOut : Option String) : ProbeResult :=
  match stderrOut with
  | none => ⟨.pyStr "unknown", .pyStr "unknown", .pyStr "unknown", .pyStr "unknown"⟩
  | some s =>
    let codec : ProbeVal :=
      if containsSub s "Video: av1" then .pyStr "video/av1"
      else if containsSub s "Video: vp9" then .pyStr "video/mp4; codecs=\"vp09\""
      else .pyStr "Unknown"
    let dur : ProbeVal :=
      match durSearch s.data with
      | some ms => .pyNum ms
      | none => .pyNone
    let res : ProbeVal :=
      match resSearch s.data with
      | some p => .pyStr (p.1 ++ "X" ++ p.2)
      | none => .pyNone
    let fr : ProbeVal :=
      match fpsSearch s.data with
      | some lit => .pyFloat lit
      | none => .pyStr "unknown"
    ⟨codec, dur, res, fr⟩

/-! ## Claim theorems -/

/-- Claim C10: every input without the `s3://` prefix makes
`getTempCopyFromS3` raise `ValueError` with no download and no temp-file
creation (the effect trace exists only on the success path), and the
download path is reached only for inputs carrying the prefix. -/
theorem getTempCopyFromS3_requires_s3_scheme :
    (∀ url temp : String, strStartsWith url "s3://" = false →
      getTempCopyFromS3 url temp = .error .valueError) ∧
    (∀ (url temp : String) (tr : List S3Effect) (p : String),
      getTempCopyFromS3 url temp = .ok (tr, p) → strStartsWith url "s3://" = true) := by
  constructor
  · intro url temp h
    unfold getTempCopyFromS3
    rw [h]
    rfl
  · intro url temp tr p h
    cases hs : strStartsWith url "s3://" with
    | true => rfl
    | false =>
      exfalso
      unfold getTempCopyFromS3 at h
      rw [hs] at h
      simp at h

theorem getTempCopyFromS3_requires_s3_scheme_witness :
    getTempCopyFromS3 "https://example.com/x" "tmp1" = .error .valueError ∧
    strStartsWith "s3://bucket/key" "s3://" = true :=
  ⟨getTempCopyFromS3_requires_s3_scheme.1 "https://example.com/x" "tmp1" rfl,
   getTempCopyFromS3_requires_s3_scheme.2 "s3://bucket/key" "tmp2"
     [.createTempFile, .download "bucket" "key"] "tmp2" rfl⟩

/-- Claim C8 (code bug): `uuid` is indeed a fresh per-construction draw
(`default_factory`), but `created_at` is a plain dataclass default, so it
is the single value captured when the class statement ran at module
import: every construction, at whatever later wall-clock moment, stores
that same shared `importTime`, not the time of that construction. -/
theorem header_created_at_shared (importTime u1 u2 : String) (n1 d1 n2 d2 : Json)
    (cb1 cb2 : String) :
    (mkVcatTestVectorHeader importTime u1 n1 d1 cb1).created_at = importTime ∧
    (mkVcatTestVectorHeader importTime u1 n1 d1 cb1).created_at =
      (mkVcatTestVectorHeader importTime u2 n2 d2 cb2).created_at ∧
    (mkVcatTestVectorHeader importTime u1 n1 d1 cb1).uuid = u1 :=
  ⟨rfl, rfl, rfl⟩

/-- Claim C3: a catalog root whose first key is not the version sentinel
(including an empty root, where `next(iter(...), None)` yields `None`)
aborts the whole run with the structural first-key error, and the request
trace is empty — no per-entry network request is ever issued. -/
theorem catalog_sentinel_guard :
    (∀ (k : String) (v : Json) (rest : List (String × Json))
        (net : String → Option (List Nat)) (parse : List Nat → Option Json),
      (k == sentinel) = false →
      run_main (some (.obj ((k, v) :: rest))) net parse =
        ([], .error (.badFirstKey (some (.str k))))) ∧
    (∀ (net : String → Option (List Nat)) (parse : List Nat → Option Json),
      run_main (some (.obj [])) net parse = ([], .error (.badFirstKey none))) := by
  constructor
  · intro k v rest net parse h
    simp only [run_main, fetch_catalog, first_iter, pyKeyEqSentinel, h, Bool.false_eq_true,
      if_false]
  · intro net parse
    rfl

theorem catalog_sentinel_guard_witness :
    run_main (some (.obj [("catalog_version", .num 1)])) (fun _ => none) (fun _ => none) =
      ([], .error (.badFirstKey (some (.str "catalog_version")))) :=
  catalog_sentinel_guard.1 "catalog_version" (.num 1) [] (fun _ => none) (fun _ => none) rfl

/-- Claim C1 (code bug): `build_catalog` always emits a catalog whose
first key is `"catalog_version"`, while `fetch_catalog` demands
`"vcat_test_vector_catalog_version"` as the first key; hence verifying a
freshly built catalog (no intervening mutation) always aborts with the
structural first-key error — the summary `passed == total == N` is never
even reached, for any store contents. -/
theorem roundtrip_build_verify_rejected (store : List (String × List Nat))
    (parse parse2 : List Nat → Option Json) (net : String → Option (List Nat))
    (cat : Json) (h : build_catalog store parse = .ok cat) :
    run_main (some cat) net parse2 =
      ([], .error (.badFirstKey (some (.str "catalog_version")))) := by
  unfold build_catalog at h
  cases hb : buildEntries parse store with
  | error e => rw [hb] at h; exact absurd h (by simp)
  | ok es =>
    rw [hb] at h
    have hcat : cat = .obj [("catalog_version", .num 1), ("manifests", .arr es)] := by
      injection h with h2
      exact h2.symm
    subst hcat
    unfold run_main fetch_catalog first_iter pyKeyEqSentinel
    rfl

/-- One valid manifest document in the store for the C1 witness. -/
def c1Doc : Json :=
  .obj [("vcat-test-vector", .obj [("uuid", .str "0000"), ("description", .str "vec1")])]

/-- The catalog the builder produces for the C1 witness store; its
`sha256` field is the SHA-256 of the stored (empty) body, checked by the
kernel. -/
def c1Cat : Json :=
  .obj [("catalog_version", .num 1), ("manifests", .arr
    [.obj [("uuid", .str "0000"), ("description", .str "vec1"),
      ("url", .str "https://roncatech-vcat-test-vectors.s3.amazonaws.com/manifests/vec1_playlist.json"),
      ("sha256", .str "e3b0c44298fc1c149afbf4c8996fb92427ae41e4649b934ca495991b7852b855")]])]

set_option maxRecDepth 10000 in
theorem roundtrip_build_verify_rejected_witness :
    build_catalog [("manifests/vec1_playlist.json", [])] (fun _ => some c1Doc) = .ok c1Cat ∧
    run_main (some c1Cat) (fun _ => none) (fun _ => none) =
      ([], .error (.badFirstKey (some (.str "catalog_version")))) :=
  ⟨rfl, roundtrip_build_verify_rejected [("manifests/vec1_playlist.json", [])]
    (fun _ => some c1Doc) (fun _ => none) (fun _ => none) c1Cat rfl⟩

/-- Claim C6 counterexample: on a probe run that completes but whose
stderr matches nothing (here the empty string), the codec field is the
capitalized `"Unknown"` and `duration_ms` and `resolution_x_y` are left
as Python `None` — not the literal string `"unknown"` the claim
requires. -/
theorem get_video_details_counterexample :
    get_video_details (some "") =
      ⟨.pyStr "Unknown", .pyNone, .pyNone, .pyStr "unknown"⟩ ∧
    ProbeVal.pyNone ≠ ProbeVal.pyStr "unknown" ∧
    ProbeVal.pyStr "Unknown" ≠ ProbeVal.pyStr "unknown" :=
  ⟨rfl, by decide, by decide⟩

/-- Claim C6 (amended): probing never raises to the builder —
`get_video_details` is total; when the `try` block itself raises, all
four fields are the string `"unknown"`; on the normal path an
undeterminable frame rate falls back to the string `"unknown"` and an
undetected codec to `"Unknown"`, while an unmatched duration or
resolution is left as `None` rather than marked `"unknown"`. -/
theorem get_video_details_policy :
    get_video_details none =
      ⟨.pyStr "unknown", .pyStr "unknown", .pyStr "unknown", .pyStr "unknown"⟩ ∧
    (∀ s : String, durSearch s.data = none →
      (get_video_details (some s)).duration_ms = .pyNone) ∧
    (∀ s : String, resSearch s.data = none →
      (get_video_details (some s)).resolution_x_y = .pyNone) ∧
    (∀ s : String, fpsSearch s.data = none →
      (get_video_details (some s)).frame_rate = .pyStr "unknown") ∧
    (∀ s : String, containsSub s "Video: av1" = false → containsSub s "Video: vp9" = false →
      (get_video_details (some s)).codec = .pyStr "Unknown") := by
  refine ⟨rfl, ?_, ?_, ?_, ?_⟩
  · intro s h
    simp [get_video_details, h]
  · intro s h
    simp [get_video_details, h]
  · intro s h
    simp [get_video_details, h]
  · intro s h1 h2
    simp [get_video_details, h1, h2]

theorem get_video_details_policy_witness :
    (get_video_details (some "")).duration_ms = .pyNone ∧
    (get_video_details (some "")).resolution_x_y = .pyNone ∧
    (get_video_details (some "")).frame_rate = .pyStr "unknown" ∧
    (get_video_details (some "")).codec = .pyStr "Unknown" :=
  ⟨get_video_details_policy.2.1 "" rfl, get_video_details_policy.2.2.1 "" rfl,
   get_video_details_policy.2.2.2.1 "" rfl, get_video_details_policy.2.2.2.2 "" rfl rfl⟩

/-- Claim C9: whenever the playlist builder writes a playlist manifest at
all, its `media_assets` sequence is the singleton `[asset]` — one
playlist per discovered video manifest, never an aggregation. -/
theorem playlist_manifest_singleton (bytes : List Nat) (parse : List Nat → Option Json)
    (b k iT uu : String) (vm ma header nm du mm rr lb : Json) (ds : String)
    (hp : parse bytes = some vm)
    (hma : pyIndex vm "media_asset" = .ok ma)
    (hmime : pyContains "video_mime_type" ma = .ok true)
    (hh : pyIndex vm "vcat_testvector_header" = .ok header)
    (hn : pyIndex header "name" = .ok nm)
    (hd : pyIndex header "description" = .ok (.str ds))
    (hu : pyIndex header "uuid" = .ok du)
    (hm2 : pyIndex ma "video_mime_type" = .ok mm)
    (hr : pyIndex ma "resolution_x_y" = .ok rr)
    (hl : pyIndex ma "length_bytes" = .ok lb) :
    Except.map (Option.map (fun pm => pm.media_assets.length))
      (generate_playlist_from_video_manifest (some bytes) parse b k iT uu) = .ok (some 1) := by
  simp [generate_playlist_from_video_manifest, hp, hma, hmime, hh, hn, hd, hu, hm2, hr, hl,
    Except.map]

/-- A well-formed video manifest for the C9 witness. -/
def c9Doc : Json :=
  .obj [("vcat_testvector_header",
          .obj [("name", .str "v1"), ("description", .str "d1"), ("uuid", .str "uid1")]),
        ("media_asset",
          .obj [("video_mime_type", .str "video/av1"), ("resolution_x_y", .str "640X480"),
                ("length_bytes", .num 999)])]

theorem playlist_manifest_singleton_witness :
    Except.map (Option.map (fun pm => pm.media_assets.length))
      (generate_playlist_from_video_manifest (some [1, 2]) (fun _ => some c9Doc) "bkt"
        "manifests/v1_video_manifest.json" "t0" "u0") = .ok (some 1) :=
  playlist_manifest_singleton [1, 2] (fun _ => some c9Doc) "bkt"
    "manifests/v1_video_manifest.json" "t0" "u0" c9Doc _ _ _ _ _ _ _ "d1"
    rfl rfl rfl rfl rfl rfl rfl rfl rfl rfl

/-- Claim C7: the `uuid` and `description` of a produced
`VcatTestVectorPlaylistAsset` are copied from the referenced manifest's
`vcat_testvector_header` — in the playlist builder (first part,
referencing a video manifest) and in the catalog builder (second part,
referencing a playlist manifest). -/
theorem playlist_asset_copies_header :
    (∀ (bytes : List Nat) (parse : List Nat → Option Json) (b k iT uu : String)
        (vm ma header nm du mm rr lb : Json) (ds : String),
      parse bytes = some vm →
      pyIndex vm "media_asset" = .ok ma →
      pyContains "video_mime_type" ma = .ok true →
      pyIndex vm "vcat_testvector_header" = .ok header →
      pyIndex header "name" = .ok nm →
      pyIndex header "description" = .ok (.str ds) →
      pyIndex header "uuid" = .ok du →
      pyIndex ma "video_mime_type" = .ok mm →
      pyIndex ma "resolution_x_y" = .ok rr →
      pyIndex ma "length_bytes" = .ok lb →
      Except.map (Option.map (fun pm =>
          pm.media_assets.map (fun a => (a.uuid, a.description))))
        (generate_playlist_from_video_manifest (some bytes) parse b k iT uu) =
        .ok (some [(du, Json.str ds)])) ∧
    (∀ (bytes : List Nat) (parse : List Nat → Option Json) (b k : String)
        (doc header uu nm dd : Json),
      parse bytes = some doc →
      pyContains "media_assets" doc = .ok true →
      pyIndex doc "vcat_testvector_header" = .ok header →
      pyIndex header "uuid" = .ok uu →
      pyIndex header "name" = .ok nm →
      pyIndex header "description" = .ok dd →
      Except.map (Option.map (fun a => (a.uuid, a.description)))
        (process_playlist_manifest (some bytes) parse b k) = .ok (some (uu, dd))) := by
  constructor
  · intro bytes parse b k iT uu vm ma header nm du mm rr lb ds
    intro hp hma hmime hh hn hd hu hm2 hr hl
    simp [generate_playlist_from_video_manifest, hp, hma, hmime, hh, hn, hd, hu, hm2, hr, hl,
      Except.map]
  · intro bytes parse b k doc header uu nm dd
    intro hp hca hh hu hn hd
    simp [process_playlist_manifest, hp, hca, hh, hu, hn, hd, Except.map]

/-- A well-formed video manifest for the C7 witness. -/
def c7Doc : Json :=
  .obj [("vcat_testvector_header",
          .obj [("name", .str "v2"), ("description", .str "d2"), ("uuid", .str "uid2")]),
        ("media_asset",
          .obj [("video_mime_type", .str "video/av1"), ("resolution_x_y", .str "640X480"),
                ("length_bytes", .num 7)])]

/-- A well-formed playlist manifest for the C7 witness. -/
def c7PlDoc : Json :=
  .obj [("vcat_testvector_header",
          .obj [("name", .str "p2"), ("description", .str "pd2"), ("uuid", .str "pid2")]),
        ("media_assets", .arr [])]

theorem playlist_asset_copies_header_witness :
    Except.map (Option.map (fun pm =>
        pm.media_assets.map (fun a => (a.uuid, a.description))))
      (generate_playlist_from_video_manifest (some [3]) (fun _ => some c7Doc) "bkt"
        "manifests/v2_video_manifest.json" "t0" "u0") =
      .ok (some [(Json.str "uid2", Json.str "d2")]) ∧
    Except.map (Option.map (fun a => (a.uuid, a.description)))
      (process_playlist_manifest (some [4]) (fun _ => some c7PlDoc) "bkt"
        "manifests/p2_playlist.json") = .ok (some (Json.str "pid2", Json.str "pd2")) :=
  ⟨playlist_asset_copies_header.1 [3] (fun _ => some c7Doc) "bkt"
      "manifests/v2_video_manifest.json" "t0" "u0" c7Doc _ _ _ _ _ _ _ "d2"
      rfl rfl rfl rfl rfl rfl rfl rfl rfl rfl,
   playlist_asset_copies_header.2 [4] (fun _ => some c7PlDoc) "bkt"
      "manifests/p2_playlist.json" c7PlDoc _ _ _ _ rfl rfl rfl rfl rfl rfl⟩

/-! ### Claim C2: the checksum/length of a playlist asset

The counterexample uses the genuine stored form of a video manifest: the
bytes are the `json.dump(..., indent=4)` text of `c2Doc`, and `c2Parse`
is `json.loads` restricted to that document. -/

/-- The serialized video manifest document (exactly the `json.dump`
output, 248 bytes of ASCII). -/
def c2Text : String :=
  "\x7b\n    \"vcat_testvector_header\": \x7b\n        \"name\": \"v1\",\n        \"description\": \"d1\",\n        \"uuid\": \"uid1\"\n    \x7d,\n    \"media_asset\": \x7b\n        \"video_mime_type\": \"video/av1\",\n        \"resolution_x_y\": \"640X480\",\n        \"length_bytes\": 999\n    \x7d\n\x7d"

def c2Bytes : List Nat := strBytes c2Text

/-- The parse of `c2Text`; its `media_asset.length_bytes` records the
underlying video's size, 999, which differs from the document's own byte
length. -/
def c2Doc : Json :=
  .obj [("vcat_testvector_header",
          .obj [("name", .str "v1"), ("description", .str "d1"), ("uuid", .str "uid1")]),
        ("media_asset",
          .obj [("video_mime_type", .str "video/av1"), ("resolution_x_y", .str "640X480"),
                ("length_bytes", .num 999)])]

/-- `json.loads` on this store: it recovers `c2Doc` from its bytes. -/
def c2Parse : List Nat → Option Json := fun b => if b == c2Bytes then some c2Doc else none

/-- Claim C2 counterexample: the playlist builder run on the stored video
manifest `c2Bytes` produces an asset whose `length_bytes` is 999 — the
value of the referenced video asset's `length_bytes` field — while the
serialized manifest document itself is 248 bytes long, so `length_bytes`
is not the byte length of the serialized manifest document. -/
theorem playlist_asset_length_counterexample :
    Except.map (Option.map (fun pm =>
        pm.media_assets.map (fun a => a.length_bytes)))
      (generate_playlist_from_video_manifest (some c2Bytes) c2Parse "bkt"
        "manifests/v1_video_manifest.json" "t0" "u0") = .ok (some [Json.num 999]) ∧
    c2Bytes.length = 248 ∧ (999 : Int) ≠ (248 : Int) :=
  ⟨rfl, rfl, by decide⟩

/-- Claim C2 (amended): the produced asset's `checksum` is the SHA-256 of
the serialized manifest document itself, in both builders; but its
`length_bytes` is the manifest document's byte length only in the catalog
builder — the playlist builder copies the referenced video asset's
recorded `length_bytes` (the video's size) instead. -/
theorem playlist_asset_digest_amended :
    (∀ (bytes : List Nat) (parse : List Nat → Option Json) (b k iT uu : String)
        (vm ma header nm du mm rr lb : Json) (ds : String),
      parse bytes = some vm →
      pyIndex vm "media_asset" = .ok ma →
      pyContains "video_mime_type" ma = .ok true →
      pyIndex vm "vcat_testvector_header" = .ok header →
      pyIndex header "name" = .ok nm →
      pyIndex header "description" = .ok (.str ds) →
      pyIndex header "uuid" = .ok du →
      pyIndex ma "video_mime_type" = .ok mm →
      pyIndex ma "resolution_x_y" = .ok rr →
      pyIndex ma "length_bytes" = .ok lb →
      Except.map (Option.map (fun pm =>
          pm.media_assets.map (fun a => (a.checksum, a.length_bytes))))
        (generate_playlist_from_video_manifest (some bytes) parse b k iT uu) =
        .ok (some [(sha256hex bytes, lb)])) ∧
    (∀ (bytes : List Nat) (parse : List Nat → Option Json) (b k : String)
        (doc header uu nm dd : Json),
      parse bytes = some doc →
      pyContains "media_assets" doc = .ok true →
      pyIndex doc "vcat_testvector_header" = .ok header →
      pyIndex header "uuid" = .ok uu →
      pyIndex header "name" = .ok nm →
      pyIndex header "description" = .ok dd →
      Except.map (Option.map (fun a => (a.checksum, a.length_bytes)))
        (process_playlist_manifest (some bytes) parse b k) =
        .ok (some (sha256hex bytes, Json.num bytes.length))) := by
  have hchk : ∀ bytes : List Nat, getChecksum bytes = sha256hex bytes := by
    intro bytes
    unfold getChecksum
    rw [absorb_spec 4096 (by norm_num) bytes [], List.nil_append]
  constructor
  · intro bytes parse b k iT uu vm ma header nm du mm rr lb ds
    intro hp hma hmime hh hn hd hu hm2 hr hl
    simp [generate_playlist_from_video_manifest, hp, hma, hmime, hh, hn, hd, hu, hm2, hr, hl,
      Except.map, hchk]
  · intro bytes parse b k doc header uu nm dd
    intro hp hca hh hu hn hd
    simp [process_playlist_manifest, hp, hca, hh, hu, hn, hd, Except.map, hchk]

/-- A playlist manifest for the C2 witness. -/
def c2PlDoc : Json :=
  .obj [("vcat_testvector_header",
          .obj [("name", .str "p1"), ("description", .str "pd1"), ("uuid", .str "pid1")]),
        ("media_assets", .arr [])]

theorem playlist_asset_digest_amended_witness :
    Except.map (Option.map (fun pm =>
        pm.media_assets.map (fun a => (a.checksum, a.length_bytes))))
      (generate_playlist_from_video_manifest (some c2Bytes) c2Parse "bkt"
        "manifests/v1_video_manifest.json" "t0" "u0") =
      .ok (some [(sha256hex c2Bytes, Json.num 999)]) ∧
    Except.map (Option.map (fun a => (a.checksum, a.length_bytes)))
      (process_playlist_manifest (some [5, 6]) (fun _ => some c2PlDoc) "bkt"
        "manifests/p1_playlist.json") =
      .ok (some (sha256hex [5, 6], Json.num 2)) :=
  ⟨playlist_asset_digest_amended.1 c2Bytes c2Parse "bkt"
      "manifests/v1_video_manifest.json" "t0" "u0" c2Doc _ _ _ _ _ _ _ "d1"
      rfl rfl rfl rfl rfl rfl rfl rfl rfl rfl,
   playlist_asset_digest_amended.2 [5, 6] (fun _ => some c2PlDoc) "bkt"
      "manifests/p1_playlist.json" c2PlDoc _ _ _ _ rfl rfl rfl rfl rfl rfl⟩

/-! ### Claim C4: per-entry isolation -/

/-- The first entry lacks `sha256`, which `validate_entry` dereferences
outside any `try`. -/
def c4Entry1 : Json := .obj [("description", .str "a"), ("url", .str "u1")]

/-- A fully well-formed second entry, never reached. -/
def c4Entry2 : Json :=
  .obj [("description", .str "b"), ("url", .str "u2"), ("sha256", .str "x")]

def c4Cat : Json := .obj [(sentinel, .num 1), ("manifests", .arr [c4Entry1, c4Entry2])]

def c4Net : String → Option (List Nat) := fun u => if u == "u1" then some [48] else some [49]

/-- Claim C4 counterexample: with a well-formed root and two entries,
entry 1's missing `sha256` key raises an uncaught `KeyError` after its
download; the run aborts — the request trace shows `u2` was never
fetched, entry 2 was never validated, and no `passed/total` summary is
produced, contradicting the claim that a missing required key never
aborts the sibling entries. -/
theorem per_entry_abort_counterexample :
    run_main (some c4Cat) c4Net (fun _ => none) = (["u1"], .error (.pyExc .keyError)) := rfl

/-- Whether an entry carries the three keys `validate_entry` dereferences
outside any `try` block (`description` and `url` in the banner prints,
`sha256` in the comparison). -/
def entryWellFormed (e : Json) : Bool :=
  (match pyIndex e "description" with | .ok _ => true | .error _ => false) &&
  (match pyIndex e "url" with | .ok _ => true | .error _ => false) &&
  (match pyIndex e "sha256" with | .ok _ => true | .error _ => false)

/-- The verdict of one entry when no exception escapes. -/
def entryPasses (net : String → Option (List Nat)) (parse : List Nat → Option Json)
    (e : Json) : Bool :=
  match (validate_entry net parse e).2 with
  | .ok true => true
  | _ => false

lemma validate_entry_total (net : String → Option (List Nat))
    (parse : List Nat → Option Json) (e : Json) (h : entryWellFormed e = true) :
    ∃ tr b, validate_entry net parse e = (tr, .ok b) := by
  unfold entryWellFormed at h
  simp only [Bool.and_eq_true] at h
  obtain ⟨⟨h1, h3⟩, h2⟩ := h
  unfold validate_entry
  cases hd : pyIndex e "description" with
  | error err => rw [hd] at h1; simp at h1
  | ok d =>
    simp only [hd]
    cases hu : pyIndex e "url" with
    | error err => rw [hu] at h3; simp at h3
    | ok u =>
      simp only [hu]
      cases u with
      | str url =>
        cases hn : net url with
        | none => simp only [hn]; exact ⟨[url], false, rfl⟩
        | some content =>
          simp only [hn]
          cases hs : pyIndex e "sha256" with
          | error err => rw [hs] at h2; simp at h2
          | ok expected =>
            simp only [hs]
            cases expected with
            | str s =>
              by_cases hm : (sha256hex content == s) = true
              · rw [if_pos hm]
                cases hp : parse content with
                | none => simp only [hp]; exact ⟨[url], false, rfl⟩
                | some parsed =>
                  simp only [hp]
                  cases hc : pyContains "vcat-test-vector" parsed with
                  | error err => simp only [hc]; exact ⟨[url], false, rfl⟩
                  | ok has => simp only [hc]; exact ⟨[url], has, rfl⟩
              · rw [if_neg hm]
                exact ⟨[url], false, rfl⟩
            | null => exact ⟨[url], false, rfl⟩
            | bool bb => exact ⟨[url], false, rfl⟩
            | num nn => exact ⟨[url], false, rfl⟩
            | arr l => exact ⟨[url], false, rfl⟩
            | obj kvs => exact ⟨[url], false, rfl⟩
      | null => exact ⟨[], false, rfl⟩
      | bool bb => exact ⟨[], false, rfl⟩
      | num nn => exact ⟨[], false, rfl⟩
      | arr l => exact ⟨[], false, rfl⟩
      | obj kvs => exact ⟨[], false, rfl⟩

lemma mainLoop_total (net : String → Option (List Nat)) (parse : List Nat → Option Json) :
    ∀ es : List Json, (∀ e ∈ es, entryWellFormed e = true) →
      mainLoop net parse es =
        ((es.map (fun e => (validate_entry net parse e).1)).flatten,
          .ok (es.countP (entryPasses net parse))) := by
  intro es
  induction es with
  | nil => intro _; rfl
  | cons e rest ih =>
    intro h
    obtain ⟨tr, b, hv⟩ := validate_entry_total net parse e (h e (List.mem_cons_self _ _))
    have hr := ih (fun x hx => h x (List.mem_cons_of_mem _ hx))
    have hp : entryPasses net parse e = b := by
      unfold entryPasses
      rw [hv]
      cases b <;> rfl
    unfold mainLoop
    rw [hv, hr]
    simp only [List.map_cons, List.flatten, hv, List.countP_cons, hp]
    cases b <;> simp [Nat.add_comm]

/-- Claim C4 (amended): for a catalog whose root carries the sentinel
first and whose every entry is an object with `description`, `url` and
`sha256` keys, per-entry failures (download failure, checksum mismatch,
body parse failure, missing `vcat-test-vector` key in the manifest) never
abort the siblings: the run completes, every entry is validated in order
(the request trace is the concatenation of the per-entry traces), and the
summary is `passed = number of entries that verified`, `total = number of
entries`.  (An entry missing its own `description`, `url` or `sha256`
key, by contrast, raises an uncaught `KeyError` in one of the banner
prints or the checksum comparison and aborts the whole run — the
counterexample shows this for `sha256`.) -/
theorem per_entry_isolation_amended (v : Json) (rest : List (String × Json))
    (entries : List Json) (net : String → Option (List Nat))
    (parse : List Nat → Option Json)
    (hm : lookupKey ((sentinel, v) :: rest) "manifests" = some (.arr entries))
    (hwf : ∀ e ∈ entries, entryWellFormed e = true) :
    run_main (some (.obj ((sentinel, v) :: rest))) net parse =
      ((entries.map (fun e => (validate_entry net parse e).1)).flatten,
        .ok (entries.countP (entryPasses net parse), entries.length)) := by
  have hsent : pyKeyEqSentinel (.str sentinel) = true := by
    simp [pyKeyEqSentinel]
  simp only [run_main, fetch_catalog, first_iter, hsent, if_true, pyGetDefault, hm,
    Option.getD_some, toIterable, mainLoop_total net parse entries hwf]

/-- A single well-formed entry for the C4 witness (its download fails, so
it counts as a failing entry that still does not abort the run). -/
def c4wEntry : Json :=
  .obj [("description", .str "x"), ("url", .str "u3"), ("sha256", .str "y")]

theorem per_entry_isolation_amended_witness :
    run_main (some (.obj [(sentinel, .num 1), ("manifests", .arr [c4wEntry])]))
      (fun _ => none) (fun _ => none) =
      (([c4wEntry].map
          (fun e => (validate_entry (fun _ => none) (fun _ => none) e).1)).flatten,
        .ok ([c4wEntry].countP (entryPasses (fun _ => none) (fun _ => none)),
          [c4wEntry].length)) :=
  per_entry_isolation_amended (.num 1) [("manifests", .arr [c4wEntry])] [c4wEntry]
    (fun _ => none) (fun _ => none) rfl
    (fun e he => by rw [List.mem_singleton] at he; subst he; rfl)

end VCat
